import Mathlib

/-!
FoundationDB `DatabaseConfiguration`: derived quantities.

A shallow embedding of `fdbclient/DatabaseConfiguration.h`.

* `int32_t` / `int` values are integers (`Int`); every arithmetic operation of the
  source that can leave the 32-bit range is followed by `wrap32`, the reduction
  to the two's-complement representative in `[-2^31, 2^31)`.
* `std::vector` is `List`, `Optional<T>` is `Option T`, a `Key` is its bytes.
* A range-based `for` loop over a vector is a `List.foldl` over the same
  elements in the same order, or a structural recursion when the loop returns
  from inside its body.
-/

namespace FDB

/-! ## Machine integers -/

/-- Smallest `int32_t`. -/
def INT32_MIN : Int := -2147483648

/-- Largest `int32_t`, `std::numeric_limits<int>::max()`. -/
def INT32_MAX : Int := 2147483647

/-- Reduction of an integer to its two's-complement 32-bit representative. -/
def wrap32 (x : Int) : Int := (x + 2147483648) % 4294967296 - 2147483648

/-- The integer is the value of some `int32_t`. -/
def fitsInt32 (x : Int) : Prop := INT32_MIN ≤ x ∧ x ≤ INT32_MAX

instance (x : Int) : Decidable (fitsInt32 x) := by
  unfold fitsInt32; exact inferInstance

/-- The `int` addition `a + b`. -/
def add32 (a b : Int) : Int := wrap32 (a + b)

/-- The `int` subtraction `a - b`. -/
def sub32 (a b : Int) : Int := wrap32 (a - b)

/-! ## Data model -/

/-- A `Key` (and a `Value`) is a byte string. -/
abbrev Key := List (Fin 256)

/-- Modelled from the spec: `IRepPolicyRef` is declared in `fdbrpc/ReplicationPolicy.h`,
which is not part of the sources; the spec calls it an opaque capability that this
code only stores and forwards. It is a nullable reference: `none` is the null
reference made by the default constructor, `some h` a handle to a policy. -/
abbrev IRepPolicyRef := Option Nat

/-- Modelled from the spec: `KeyValueStoreType` is declared in `fdbclient/FDBTypes.h`,
which is not part of the sources; the spec calls it an enumerated store type. It is kept
as the number of the enumerator. -/
abbrev KeyValueStoreType := Nat

/-- The struct `SatelliteInfo`. -/
structure SatelliteInfo where
  dcId : Key
  priority : Int
deriving DecidableEq, Repr

/-- The constructor `SatelliteInfo()`. -/
def SatelliteInfo.new : SatelliteInfo := { dcId := [], priority := 0 }

/-- The struct `RegionInfo`. -/
structure RegionInfo where
  dcId : Key
  priority : Int
  satelliteTLogPolicy : IRepPolicyRef
  satelliteDesiredTLogCount : Int
  satelliteTLogReplicationFactor : Int
  satelliteTLogWriteAntiQuorum : Int
  satelliteTLogUsableDcs : Int
  satellites : List SatelliteInfo
deriving DecidableEq, Repr

/-- The constructor `RegionInfo()`: the members it does not list are
default-constructed (empty key, null policy, empty vector). -/
def RegionInfo.new : RegionInfo :=
  { dcId := []
    priority := 0
    satelliteTLogPolicy := none
    satelliteDesiredTLogCount := -1
    satelliteTLogReplicationFactor := 0
    satelliteTLogWriteAntiQuorum := 0
    satelliteTLogUsableDcs := 1
    satellites := [] }

/-- The data members of the struct `DatabaseConfiguration`, in declaration order. The
`std::map<std::string, std::string>` of `mutableConfiguration` is the list of its
entries in iteration order, that is by ascending key. -/
structure DatabaseConfiguration where
  initialized : Bool
  masterProxyCount : Int
  autoMasterProxyCount : Int
  resolverCount : Int
  autoResolverCount : Int
  tLogPolicy : IRepPolicyRef
  desiredTLogCount : Int
  autoDesiredTLogCount : Int
  tLogWriteAntiQuorum : Int
  tLogReplicationFactor : Int
  tLogDataStoreType : KeyValueStoreType
  storagePolicy : IRepPolicyRef
  durableStorageQuorum : Int
  storageTeamSize : Int
  storageServerStoreType : KeyValueStoreType
  remoteDesiredTLogCount : Int
  remoteTLogReplicationFactor : Int
  remoteTLogPolicy : IRepPolicyRef
  regions : List RegionInfo
  mutableConfiguration : Option (List (Key × Key))
  rawConfiguration : List (Key × Key)
deriving DecidableEq, Repr

/-- Modelled from the spec: the private members `resetInternal`, `setInternal` and
`setDefaultReplicationPolicy` are declared in the header and defined outside the sources.
The spec has the decoder identify the structured field a key addresses and decode the
value into it, ignore unknown keys, and keep the raw table as the single source of truth
of which the structured fields are a cache; so the three are arbitrary state
transformers, `setInternal` with its `bool` result, of which the decoding step and the
default-policy step leave `rawConfiguration` as it is. -/
structure Decoder where
  resetInternal : DatabaseConfiguration → DatabaseConfiguration
  setInternal : Key → Key → DatabaseConfiguration → Bool × DatabaseConfiguration
  setDefaultReplicationPolicy : DatabaseConfiguration → DatabaseConfiguration
  setInternal_raw : ∀ k v c, (setInternal k v c).2.rawConfiguration = c.rawConfiguration
  setDefaultReplicationPolicy_raw :
    ∀ c, (setDefaultReplicationPolicy c).rawConfiguration = c.rawConfiguration

/-- The `int` division `a / b`: undefined (`none`) for a zero divisor and for the
overflowing `INT32_MIN / -1`, otherwise the quotient truncated towards zero. -/
def div32 (a b : Int) : Option Int :=
  if b = 0 ∨ (a = INT32_MIN ∧ b = -1) then none else some (a.tdiv b)

namespace DatabaseConfiguration

/-! ## Operations -/

/-- The loop of `getRegion`: the first region whose `dcId` equals `k`, the
default region when the loop runs to its end. -/
def getRegionLoop (k : Key) : List RegionInfo → RegionInfo
  | [] => RegionInfo.new
  | r :: rs => if r.dcId = k then r else getRegionLoop k rs

/-- The member `getRegion(Optional<Key> dcId)`. -/
def getRegion (c : DatabaseConfiguration) (dcId : Option Key) : RegionInfo :=
  match dcId with
  | none => RegionInfo.new
  | some k => getRegionLoop k c.regions

/-- The member `expectedLogSets(Optional<Key> dcId)`. The counter is at most 3,
so its increments never leave the `int` range. -/
def expectedLogSets (c : DatabaseConfiguration) (dcId : Option Key) : Int :=
  let result : Int := 1
  let result :=
    match dcId with
    | some k =>
      if (c.getRegion (some k)).satelliteTLogReplicationFactor > 0 then result + 1 else result
    | none => result
  let result := if c.remoteTLogReplicationFactor > 0 then result + 1 else result
  result

/-- The member `minDatacentersRequired()`. In `minRequired += 1 + r.satellites.size()` the
right-hand side and the sum are computed in `size_t`, and the sum is converted back
to `int`, which keeps its low 32 bits. -/
def minDatacentersRequired (c : DatabaseConfiguration) : Int :=
  c.regions.foldl (fun minRequired r => wrap32 (minRequired + (1 + (r.satellites.length : Int)))) 0

/-- The member `minMachinesRequiredPerDatacenter()`. `/` on `int` truncates towards zero;
the divisor is at least 1, so the quotient of an `int32_t` is an `int32_t`. -/
def minMachinesRequiredPerDatacenter (c : DatabaseConfiguration) : Int :=
  c.regions.foldl
    (fun minRequired r =>
      max minRequired (r.satelliteTLogReplicationFactor.tdiv (max 1 r.satelliteTLogUsableDcs)))
    (max c.remoteTLogReplicationFactor (max c.tLogReplicationFactor c.storageTeamSize))

/-- The loop of `minMachinesRequiredPerDatacenter()` with its `int` division checked:
from the running maximum `minRequired` it visits the regions in order and stops with
`none` at the first region whose division is undefined. -/
def minMachinesRequiredLoop : Int → List RegionInfo → Option Int
  | minRequired, [] => some minRequired
  | minRequired, r :: rs =>
    match div32 r.satelliteTLogReplicationFactor (max 1 r.satelliteTLogUsableDcs) with
    | none => none
    | some q => minMachinesRequiredLoop (max minRequired q) rs

/-- The member `minMachinesRequiredPerDatacenter()` with its `int` division checked:
`none` when some region's division is undefined, otherwise the value returned. -/
def minMachinesRequiredPerDatacenterChecked (c : DatabaseConfiguration) : Option Int :=
  minMachinesRequiredLoop
    (max c.remoteTLogReplicationFactor (max c.tLogReplicationFactor c.storageTeamSize))
    c.regions

/-- The local `worstSatellite` of `maxMachineFailuresTolerated()` after its loop. -/
def worstSatellite (c : DatabaseConfiguration) : Int :=
  c.regions.foldl
    (fun worst r =>
      min worst (sub32 r.satelliteTLogReplicationFactor r.satelliteTLogWriteAntiQuorum))
    (if c.regions.length ≠ 0 then INT32_MAX else 0)

/-- The member `maxMachineFailuresTolerated()`. -/
def maxMachineFailuresTolerated (c : DatabaseConfiguration) : Int :=
  if c.remoteTLogReplicationFactor > 0 ∧ c.worstSatellite > 0 then
    add32 1
      (min (max (sub32 (sub32 c.tLogReplicationFactor 1) c.tLogWriteAntiQuorum)
                (sub32 c.worstSatellite 1))
           (sub32 c.durableStorageQuorum 1))
  else if c.worstSatellite > 0 then
    min (sub32 (sub32 (add32 c.tLogReplicationFactor c.worstSatellite) 2) c.tLogWriteAntiQuorum)
        (sub32 c.durableStorageQuorum 1)
  else
    min (sub32 (sub32 c.tLogReplicationFactor 1) c.tLogWriteAntiQuorum)
        (sub32 c.durableStorageQuorum 1)

/-- The member `getDesiredProxies()`. -/
def getDesiredProxies (c : DatabaseConfiguration) : Int :=
  if c.masterProxyCount = -1 then c.autoMasterProxyCount else c.masterProxyCount

/-- The member `getDesiredResolvers()`. -/
def getDesiredResolvers (c : DatabaseConfiguration) : Int :=
  if c.resolverCount = -1 then c.autoResolverCount else c.resolverCount

/-- The member `getDesiredLogs()`. -/
def getDesiredLogs (c : DatabaseConfiguration) : Int :=
  if c.desiredTLogCount = -1 then c.autoDesiredTLogCount else c.desiredTLogCount

/-- The member `getDesiredRemoteLogs()`. -/
def getDesiredRemoteLogs (c : DatabaseConfiguration) : Int :=
  if c.remoteDesiredTLogCount = -1 then c.getDesiredLogs else c.remoteDesiredTLogCount

/-- The member `getDesiredSatelliteLogs(Optional<Key> dcId)`. -/
def getDesiredSatelliteLogs (c : DatabaseConfiguration) (dcId : Option Key) : Int :=
  let desired := (c.getRegion dcId).satelliteDesiredTLogCount
  if desired = -1 then c.autoDesiredTLogCount else desired

/-- Modelled from the spec: `makeConfigurationImmutable` is declared in the header and
defined outside the sources. The spec has it convert the mutable key-to-value mapping
back into the canonical sorted sequence, and be a no-op on a store that is already
canonical; the header adds that `rawConfiguration` is not valid while
`mutableConfiguration` is present. -/
def makeConfigurationImmutable (c : DatabaseConfiguration) : DatabaseConfiguration :=
  match c.mutableConfiguration with
  | none => c
  | some m => { c with rawConfiguration := m, mutableConfiguration := none }

/-- The result of `operator ==`: both operands are made immutable, then their
`rawConfiguration` vectors are compared entry by entry. -/
def operatorEq (c rhs : DatabaseConfiguration) : Bool :=
  decide (c.makeConfigurationImmutable.rawConfiguration =
    rhs.makeConfigurationImmutable.rawConfiguration)

/-- The member `fromKeyValues(rawConfig)`, with the private members it calls taken from
`D`. The loop visits the entries of the member `rawConfiguration`, which the calls of
`setInternal` leave as it is. -/
def fromKeyValues (D : Decoder) (c : DatabaseConfiguration) (rawConfig : List (Key × Key)) :
    DatabaseConfiguration :=
  let s := D.resetInternal c
  let s := { s with rawConfiguration := rawConfig }
  let s := s.rawConfiguration.foldl (fun s kv => (D.setInternal kv.1 kv.2 s).2) s
  D.setDefaultReplicationPolicy s

end DatabaseConfiguration

/-! ## Fixtures -/

/-- A region with the given satellite replication factor, anti-quorum, usable
datacenter count and satellites; the other members as `RegionInfo()` leaves them. -/
def regionWith (dc : Key) (rf aq usable : Int) (sats : List SatelliteInfo) : RegionInfo :=
  { RegionInfo.new with
    dcId := dc
    satelliteTLogReplicationFactor := rf
    satelliteTLogWriteAntiQuorum := aq
    satelliteTLogUsableDcs := usable
    satellites := sats }

/-- A configuration with the given log replication factor, anti-quorum, durable
storage quorum, remote replication factor and regions; every count is at its
sentinel `-1`, the team size equals the quorum. -/
def configWith (rf aq dsq remote : Int) (regions : List RegionInfo) : DatabaseConfiguration :=
  { initialized := true
    masterProxyCount := -1
    autoMasterProxyCount := 3
    resolverCount := -1
    autoResolverCount := 1
    tLogPolicy := none
    desiredTLogCount := -1
    autoDesiredTLogCount := 8
    tLogWriteAntiQuorum := aq
    tLogReplicationFactor := rf
    tLogDataStoreType := 0
    storagePolicy := none
    durableStorageQuorum := dsq
    storageTeamSize := dsq
    storageServerStoreType := 0
    remoteDesiredTLogCount := -1
    remoteTLogReplicationFactor := remote
    remoteTLogPolicy := none
    regions := regions
    mutableConfiguration := none
    rawConfiguration := [] }

/-- A configuration with a single region that has `n` satellites. -/
def configWithSatellites (n : Nat) : DatabaseConfiguration :=
  configWith 3 0 3 0 [regionWith [1] 0 0 1 (List.replicate n SatelliteInfo.new)]

/-- An example decoder: `resetInternal` puts the proxy count and the log replication
factor back to `-1` and drops the log policy; `setInternal` reads the length of the value
into the proxy count for the key `[112]` (no recovery) and into the log replication factor
for the key `[114]` (recovery), and ignores every other key; `setDefaultReplicationPolicy`
gives a configuration without log policy the policy numbered 1. -/
def exampleDecoder : Decoder where
  resetInternal c :=
    { c with initialized := false, masterProxyCount := -1, tLogReplicationFactor := -1,
             tLogPolicy := none }
  setInternal k v c :=
    if k = [112] then (false, { c with masterProxyCount := (v.length : Int) })
    else if k = [114] then (true, { c with tLogReplicationFactor := (v.length : Int) })
    else (false, c)
  setDefaultReplicationPolicy c :=
    match c.tLogPolicy with
    | none => { c with tLogPolicy := some 1 }
    | some _ => c
  setInternal_raw := by
    intro k v c
    by_cases h1 : k = [112]
    · simp [h1]
    · by_cases h2 : k = [114]
      · simp [h2]
      · simp [h1, h2]
  setDefaultReplicationPolicy_raw := by
    intro c
    cases h : c.tLogPolicy <;> simp [h]

/-! ## Vocabulary of the statements -/

/-- The integer `w` is the minimum, over the regions of `c`, of
`satelliteTLogReplicationFactor - satelliteTLogWriteAntiQuorum` taken in the
integers: some region attains it and no region is below it. -/
def IsWorstSatellite (c : DatabaseConfiguration) (w : Int) : Prop :=
  (∃ r ∈ c.regions, w = r.satelliteTLogReplicationFactor - r.satelliteTLogWriteAntiQuorum) ∧
  ∀ r ∈ c.regions, w ≤ r.satelliteTLogReplicationFactor - r.satelliteTLogWriteAntiQuorum

instance (c : DatabaseConfiguration) (w : Int) : Decidable (IsWorstSatellite c w) := by
  unfold IsWorstSatellite; exact inferInstance

/-- No region's `satelliteTLogReplicationFactor - satelliteTLogWriteAntiQuorum`
overflows `int32_t`. -/
def SatelliteMarginsFit (c : DatabaseConfiguration) : Prop :=
  ∀ r ∈ c.regions,
    fitsInt32 (r.satelliteTLogReplicationFactor - r.satelliteTLogWriteAntiQuorum)

instance (c : DatabaseConfiguration) : Decidable (SatelliteMarginsFit c) := by
  unfold SatelliteMarginsFit; exact inferInstance

/-- No operation of the first `return` of `maxMachineFailuresTolerated()` overflows
`int32_t`: the loop's subtractions, `tLogReplicationFactor - 1`, the subtraction of
`tLogWriteAntiQuorum` from it, and `durableStorageQuorum - 1` of an `int32_t` quorum
(which also bounds the final `1 + ...`). -/
def RemoteBranchFits (c : DatabaseConfiguration) : Prop :=
  SatelliteMarginsFit c ∧
  fitsInt32 (c.tLogReplicationFactor - 1) ∧
  fitsInt32 (c.tLogReplicationFactor - 1 - c.tLogWriteAntiQuorum) ∧
  fitsInt32 c.durableStorageQuorum ∧
  fitsInt32 (c.durableStorageQuorum - 1)

instance (c : DatabaseConfiguration) : Decidable (RemoteBranchFits c) := by
  unfold RemoteBranchFits; exact inferInstance

/-- No operation of the second `return` of `maxMachineFailuresTolerated()` overflows
`int32_t` when the loop leaves `w` in `worstSatellite`: the loop's subtractions,
`tLogReplicationFactor + w`, the two subtractions that follow it from left to right,
and `durableStorageQuorum - 1`. -/
def SatelliteBranchFits (c : DatabaseConfiguration) (w : Int) : Prop :=
  SatelliteMarginsFit c ∧
  fitsInt32 (c.tLogReplicationFactor + w) ∧
  fitsInt32 (c.tLogReplicationFactor + w - 2) ∧
  fitsInt32 (c.tLogReplicationFactor + w - 2 - c.tLogWriteAntiQuorum) ∧
  fitsInt32 (c.durableStorageQuorum - 1)

instance (c : DatabaseConfiguration) (w : Int) : Decidable (SatelliteBranchFits c w) := by
  unfold SatelliteBranchFits; exact inferInstance

/-- No operation of the last `return` of `maxMachineFailuresTolerated()` overflows
`int32_t`. -/
def PrimaryBranchFits (c : DatabaseConfiguration) : Prop :=
  fitsInt32 (c.tLogReplicationFactor - 1) ∧
  fitsInt32 (c.tLogReplicationFactor - 1 - c.tLogWriteAntiQuorum) ∧
  fitsInt32 (c.durableStorageQuorum - 1)

instance (c : DatabaseConfiguration) : Decidable (PrimaryBranchFits c) := by
  unfold PrimaryBranchFits; exact inferInstance

/-- The sum over the regions of `1 +` the number of satellites of the region. -/
def datacenterCount (c : DatabaseConfiguration) : Int :=
  (c.regions.map (fun r => 1 + (r.satellites.length : Int))).sum

/-- The total number of satellites of all regions. -/
def satelliteCount (c : DatabaseConfiguration) : Int :=
  (c.regions.map (fun r => (r.satellites.length : Int))).sum

/-- The region `r` with satellite `s` inserted before position `j` of its satellite
list, at the end when the list has at most `j` entries. -/
def insertSatellite (j : Nat) (s : SatelliteInfo) (r : RegionInfo) : RegionInfo :=
  { r with satellites := r.satellites.take j ++ s :: r.satellites.drop j }

/-- The region list with satellite `s` inserted at position `j` of region `i`. -/
def addSatelliteAt (i j : Nat) (s : SatelliteInfo) : List RegionInfo → List RegionInfo
  | [] => []
  | r :: rs =>
    match i with
    | 0 => insertSatellite j s r :: rs
    | i + 1 => r :: addSatelliteAt i j s rs

/-- The configuration `c` with satellite `s` inserted at position `j` of the satellite
list of region `i`; nothing else changes. -/
def DatabaseConfiguration.addSatellite (c : DatabaseConfiguration) (i j : Nat)
    (s : SatelliteInfo) : DatabaseConfiguration :=
  { c with regions := addSatelliteAt i j s c.regions }

/-! ## Machine arithmetic -/

theorem wrap32_of_fits {x : Int} (h : fitsInt32 x) : wrap32 x = x := by
  unfold fitsInt32 INT32_MIN INT32_MAX at h
  unfold wrap32
  omega

theorem fitsInt32_wrap32 (x : Int) : fitsInt32 (wrap32 x) := by
  unfold fitsInt32 INT32_MIN INT32_MAX wrap32
  omega

theorem wrap32_wrap32_add (a b : Int) : wrap32 (wrap32 a + b) = wrap32 (a + b) := by
  unfold wrap32
  omega

/-! ## Loops -/

/-- A loop that keeps the running minimum ends at most at its start value, at most
at every visited value, and at the start value or a visited value. -/
theorem foldl_min_spec {α : Type} (f : α → Int) (l : List α) (init : Int) :
    l.foldl (fun w r => min w (f r)) init ≤ init ∧
    (∀ r ∈ l, l.foldl (fun w r => min w (f r)) init ≤ f r) ∧
    (l.foldl (fun w r => min w (f r)) init = init ∨
      ∃ r ∈ l, l.foldl (fun w r => min w (f r)) init = f r) := by
  induction l generalizing init with
  | nil => simp
  | cons a l ih =>
    obtain ⟨h1, h2, h3⟩ := ih (min init (f a))
    simp only [List.foldl_cons, List.mem_cons]
    refine ⟨le_trans h1 (min_le_left _ _), ?_, ?_⟩
    · rintro r (rfl | hr)
      · exact le_trans h1 (min_le_right _ _)
      · exact h2 r hr
    · rcases h3 with h | ⟨r, hr, h⟩
      · rcases min_choice init (f a) with hm | hm
        · left; rw [h, hm]
        · right; exact ⟨a, Or.inl rfl, by rw [h, hm]⟩
      · right; exact ⟨r, Or.inr hr, h⟩

/-- A loop that keeps the running maximum ends at least at its start value, at least
at every visited value, and at the start value or a visited value. -/
theorem foldl_max_spec {α : Type} (f : α → Int) (l : List α) (init : Int) :
    init ≤ l.foldl (fun w r => max w (f r)) init ∧
    (∀ r ∈ l, f r ≤ l.foldl (fun w r => max w (f r)) init) ∧
    (l.foldl (fun w r => max w (f r)) init = init ∨
      ∃ r ∈ l, l.foldl (fun w r => max w (f r)) init = f r) := by
  induction l generalizing init with
  | nil => simp
  | cons a l ih =>
    obtain ⟨h1, h2, h3⟩ := ih (max init (f a))
    simp only [List.foldl_cons, List.mem_cons]
    refine ⟨le_trans (le_max_left _ _) h1, ?_, ?_⟩
    · rintro r (rfl | hr)
      · exact le_trans (le_max_right _ _) h1
      · exact h2 r hr
    · rcases h3 with h | ⟨r, hr, h⟩
      · rcases max_choice init (f a) with hm | hm
        · left; rw [h, hm]
        · right; exact ⟨a, Or.inl rfl, by rw [h, hm]⟩
      · right; exact ⟨r, Or.inr hr, h⟩

/-- A loop that adds to an `int` accumulator ends at the 32-bit reduction of the
start value plus the sum of the addends. -/
theorem foldl_wrap32_add {α : Type} (g : α → Int) (l : List α) (init : Int)
    (h : fitsInt32 init) :
    l.foldl (fun acc r => wrap32 (acc + g r)) init = wrap32 (init + (l.map g).sum) := by
  induction l generalizing init with
  | nil => simp [wrap32_of_fits h]
  | cons a l ih =>
    simp only [List.foldl_cons, List.map_cons, List.sum_cons]
    rw [ih _ (fitsInt32_wrap32 _), wrap32_wrap32_add, add_assoc]

theorem sum_addSatelliteAt (i j : Nat) (s : SatelliteInfo) (l : List RegionInfo)
    (hi : i < l.length) :
    ((addSatelliteAt i j s l).map (fun r => 1 + (r.satellites.length : Int))).sum =
      (l.map (fun r => 1 + (r.satellites.length : Int))).sum + 1 := by
  induction l generalizing i with
  | nil => simp at hi
  | cons r rs ih =>
    cases i with
    | zero =>
      have hlen : (r.satellites.take j ++ s :: r.satellites.drop j).length =
          r.satellites.length + 1 := by
        rw [List.length_append, List.length_cons, ← Nat.add_assoc, ← List.length_append,
          List.take_append_drop]
      simp only [addSatelliteAt, insertSatellite, List.map_cons, List.sum_cons, hlen]
      push_cast
      ring
    | succ i =>
      have hi2 : i < rs.length := by simpa using hi
      simp only [addSatelliteAt, List.map_cons, List.sum_cons, ih i hi2]
      ring

namespace DatabaseConfiguration

theorem worstSatellite_nil (c : DatabaseConfiguration) (h : c.regions = []) :
    c.worstSatellite = 0 := by
  simp [worstSatellite, h]

/-- With at least one region the loop of `maxMachineFailuresTolerated()` leaves the
least `int` difference in `worstSatellite`. -/
theorem worstSatellite_cons (c : DatabaseConfiguration) (h : c.regions ≠ []) :
    (∃ r ∈ c.regions, c.worstSatellite =
        sub32 r.satelliteTLogReplicationFactor r.satelliteTLogWriteAntiQuorum) ∧
    ∀ r ∈ c.regions, c.worstSatellite ≤
        sub32 r.satelliteTLogReplicationFactor r.satelliteTLogWriteAntiQuorum := by
  have hlen : c.regions.length ≠ 0 := by
    intro h0; exact h (List.length_eq_zero.mp h0)
  obtain ⟨h1, h2, h3⟩ := foldl_min_spec
    (fun r : RegionInfo => sub32 r.satelliteTLogReplicationFactor r.satelliteTLogWriteAntiQuorum)
    c.regions INT32_MAX
  unfold worstSatellite
  rw [if_pos hlen]
  refine ⟨?_, h2⟩
  rcases h3 with h3 | h3
  · obtain ⟨a, ha⟩ := List.exists_mem_of_ne_nil _ h
    refine ⟨a, ha, le_antisymm (h2 a ha) ?_⟩
    rw [h3]
    exact (fitsInt32_wrap32 _).2
  · exact h3

/-- When no difference overflows, the loop leaves the integer minimum. -/
theorem worstSatellite_eq (c : DatabaseConfiguration) (w : Int)
    (hfit : SatelliteMarginsFit c) (hw : IsWorstSatellite c w) : c.worstSatellite = w := by
  obtain ⟨⟨r, hr, hwr⟩, hle⟩ := hw
  have hne : c.regions ≠ [] := List.ne_nil_of_mem hr
  obtain ⟨⟨r', hr', he⟩, hall⟩ := worstSatellite_cons c hne
  have e1 := hall r hr
  rw [sub32, wrap32_of_fits (hfit r hr)] at e1
  rw [sub32, wrap32_of_fits (hfit r' hr')] at he
  have e2 := hle r' hr'
  omega

theorem getRegionLoop_of_no_match (k : Key) (l : List RegionInfo)
    (h : ∀ r ∈ l, r.dcId ≠ k) : getRegionLoop k l = RegionInfo.new := by
  induction l with
  | nil => rfl
  | cons a l ih =>
    have ha : a.dcId ≠ k := h a (List.mem_cons_self a l)
    rw [getRegionLoop, if_neg ha]
    exact ih (fun r hr => h r (List.mem_cons_of_mem a hr))

/-- The loop of `getRegion` stops at the first region whose `dcId` is `k`. -/
theorem getRegionLoop_first_match (k : Key) (l : List RegionInfo)
    (h : ∃ r ∈ l, r.dcId = k) :
    ∃ pre r post, l = pre ++ r :: post ∧ r.dcId = k ∧ (∀ x ∈ pre, x.dcId ≠ k) ∧
      getRegionLoop k l = r := by
  induction l with
  | nil => simp at h
  | cons a l ih =>
    by_cases ha : a.dcId = k
    · exact ⟨[], a, l, rfl, ha, by simp, by rw [getRegionLoop, if_pos ha]⟩
    · have h2 : ∃ r ∈ l, r.dcId = k := by
        obtain ⟨r, hr, e⟩ := h
        rcases List.mem_cons.mp hr with rfl | hr
        · exact absurd e ha
        · exact ⟨r, hr, e⟩
      obtain ⟨pre, r, post, e1, e2, e3, e4⟩ := ih h2
      refine ⟨a :: pre, r, post, by rw [e1]; rfl, e2, ?_, by rw [getRegionLoop, if_neg ha, e4]⟩
      intro x hx
      rcases List.mem_cons.mp hx with rfl | hx
      · exact ha
      · exact e3 x hx

theorem minDatacentersRequired_eq_wrap32 (c : DatabaseConfiguration) :
    c.minDatacentersRequired = wrap32 (datacenterCount c) := by
  unfold minDatacentersRequired datacenterCount
  rw [foldl_wrap32_add (fun r : RegionInfo => 1 + (r.satellites.length : Int)) c.regions 0
    (by decide)]
  simp

theorem datacenterCount_nonneg (c : DatabaseConfiguration) : 0 ≤ datacenterCount c := by
  unfold datacenterCount
  apply List.sum_nonneg
  intro x hx
  obtain ⟨r, _, rfl⟩ := List.mem_map.mp hx
  omega

theorem datacenterCount_eq (c : DatabaseConfiguration) :
    datacenterCount c = (c.regions.length : Int) + satelliteCount c := by
  unfold datacenterCount satelliteCount
  induction c.regions with
  | nil => simp
  | cons r rs ih =>
    simp only [List.map_cons, List.sum_cons, List.length_cons, ih]
    push_cast
    ring

theorem minDatacentersRequired_configWithSatellites (n : Nat) :
    datacenterCount (configWithSatellites n) = 1 + (n : Int) ∧
    (configWithSatellites n).minDatacentersRequired = wrap32 (1 + (n : Int)) := by
  have hc : datacenterCount (configWithSatellites n) = 1 + (n : Int) := by
    simp [datacenterCount, configWithSatellites, configWith, regionWith]
  exact ⟨hc, by rw [minDatacentersRequired_eq_wrap32, hc]⟩

theorem minDatacentersRequired_configWithSatellites_add (n : Nat) (s : SatelliteInfo) :
    0 < (configWithSatellites n).regions.length ∧
    ((configWithSatellites n).addSatellite 0 0 s).minDatacentersRequired =
      wrap32 (1 + (n : Int) + 1) := by
  have hlen : 0 < (configWithSatellites n).regions.length := by
    simp [configWithSatellites, configWith]
  have e : datacenterCount ((configWithSatellites n).addSatellite 0 0 s) =
      datacenterCount (configWithSatellites n) + 1 :=
    sum_addSatelliteAt 0 0 s (configWithSatellites n).regions hlen
  refine ⟨hlen, ?_⟩
  rw [minDatacentersRequired_eq_wrap32, e, (minDatacentersRequired_configWithSatellites n).1]

/-- When `worstSatellite` is not positive both guards of
`maxMachineFailuresTolerated()` fail and its last `return` gives the result. -/
theorem maxMachineFailuresTolerated_of_worstSatellite_nonpos (c : DatabaseConfiguration)
    (h : c.worstSatellite ≤ 0) :
    c.maxMachineFailuresTolerated =
      min (sub32 (sub32 c.tLogReplicationFactor 1) c.tLogWriteAntiQuorum)
          (sub32 c.durableStorageQuorum 1) := by
  have h1 : ¬ (c.remoteTLogReplicationFactor > 0 ∧ c.worstSatellite > 0) := by
    rintro ⟨_, h2⟩; omega
  have h2 : ¬ (c.worstSatellite > 0) := by omega
  unfold maxMachineFailuresTolerated
  rw [if_neg h1, if_neg h2]

theorem worstSatellite_singleton (c : DatabaseConfiguration) (r : RegionInfo)
    (h : c.regions = [r]) :
    c.worstSatellite =
      min INT32_MAX (sub32 r.satelliteTLogReplicationFactor r.satelliteTLogWriteAntiQuorum) := by
  simp [worstSatellite, h]

/-- The value of `worstSatellite` does not depend on the order of the regions. -/
theorem worstSatellite_perm (c : DatabaseConfiguration) (l : List RegionInfo)
    (h : l.Perm c.regions) :
    worstSatellite { c with regions := l } = c.worstSatellite := by
  unfold worstSatellite
  simp only [h.length_eq]
  apply List.Perm.foldl_eq' h
  intro x _ y _ z
  simp only [min_assoc]
  rw [min_comm (sub32 x.satelliteTLogReplicationFactor x.satelliteTLogWriteAntiQuorum)]

/-- Decoding a list of entries leaves `rawConfiguration` as it is. -/
theorem foldl_setInternal_raw (D : Decoder) (l : List (Key × Key)) (s : DatabaseConfiguration) :
    (l.foldl (fun s kv => (D.setInternal kv.1 kv.2 s).2) s).rawConfiguration =
      s.rawConfiguration := by
  induction l generalizing s with
  | nil => rfl
  | cons kv l ih =>
    rw [List.foldl_cons, ih, D.setInternal_raw]

theorem makeConfigurationImmutable_of_none (c : DatabaseConfiguration)
    (h : c.mutableConfiguration = none) : c.makeConfigurationImmutable = c := by
  unfold makeConfigurationImmutable
  rw [h]

/-! ## `maxMachineFailuresTolerated()` -/

/-- C1. For a configuration with at least one region, a positive
`remoteTLogReplicationFactor` and a positive minimum `w` over the regions of
`satelliteTLogReplicationFactor - satelliteTLogWriteAntiQuorum`, where no `int32_t`
operation overflows, `maxMachineFailuresTolerated()` returns
`1 + min(max(tLogReplicationFactor - 1 - tLogWriteAntiQuorum, w - 1), durableStorageQuorum - 1)`. -/
theorem maxMachineFailuresTolerated_remote_and_satellites (c : DatabaseConfiguration) (w : Int)
    (_hne : c.regions ≠ []) (hfit : RemoteBranchFits c) (hw : IsWorstSatellite c w)
    (hremote : 0 < c.remoteTLogReplicationFactor) (hpos : 0 < w) :
    c.maxMachineFailuresTolerated =
      1 + min (max (c.tLogReplicationFactor - 1 - c.tLogWriteAntiQuorum) (w - 1))
              (c.durableStorageQuorum - 1) := by
  obtain ⟨hm, h1, h2, h3, h4⟩ := hfit
  have hws : c.worstSatellite = w := worstSatellite_eq c w hm hw
  have hwfit : fitsInt32 w := by
    obtain ⟨⟨r, hr, e⟩, _⟩ := hw
    rw [e]; exact hm r hr
  have hw1 : fitsInt32 (w - 1) := by
    unfold fitsInt32 INT32_MIN INT32_MAX at hwfit ⊢
    omega
  unfold maxMachineFailuresTolerated
  rw [hws, if_pos ⟨hremote, hpos⟩]
  simp only [sub32, add32]
  rw [wrap32_of_fits h1, wrap32_of_fits h2, wrap32_of_fits hw1, wrap32_of_fits h4]
  apply wrap32_of_fits
  unfold fitsInt32 INT32_MIN INT32_MAX at *
  omega

/-- C1, at the configuration of the specification: one region with satellite
replication factor 2 and anti-quorum 0, remote replication factor 2, replication
factor 3, anti-quorum 0 and durable-storage quorum 3 tolerate 3 failures. -/
theorem maxMachineFailuresTolerated_remote_and_satellites_witness :
    IsWorstSatellite (configWith 3 0 3 2 [regionWith [1] 2 0 1 []]) 2 ∧
    (configWith 3 0 3 2 [regionWith [1] 2 0 1 []]).maxMachineFailuresTolerated = 3 :=
  ⟨by decide,
   maxMachineFailuresTolerated_remote_and_satellites
     (configWith 3 0 3 2 [regionWith [1] 2 0 1 []]) 2
     (by decide) (by decide) (by decide) (by decide) (by decide)⟩

/-- C2. For a configuration with at least one region, a `remoteTLogReplicationFactor`
that is not positive and a positive minimum `w` over the regions of
`satelliteTLogReplicationFactor - satelliteTLogWriteAntiQuorum`, where no `int32_t`
operation overflows, `maxMachineFailuresTolerated()` returns
`min(tLogReplicationFactor + w - 2 - tLogWriteAntiQuorum, durableStorageQuorum - 1)`. -/
theorem maxMachineFailuresTolerated_satellites_only (c : DatabaseConfiguration) (w : Int)
    (_hne : c.regions ≠ []) (hfit : SatelliteBranchFits c w) (hw : IsWorstSatellite c w)
    (hremote : c.remoteTLogReplicationFactor ≤ 0) (hpos : 0 < w) :
    c.maxMachineFailuresTolerated =
      min (c.tLogReplicationFactor + w - 2 - c.tLogWriteAntiQuorum)
          (c.durableStorageQuorum - 1) := by
  obtain ⟨hm, h1, h2, h3, h4⟩ := hfit
  have hws : c.worstSatellite = w := worstSatellite_eq c w hm hw
  have hno : ¬ (c.remoteTLogReplicationFactor > 0 ∧ w > 0) := by
    rintro ⟨h, _⟩; omega
  unfold maxMachineFailuresTolerated
  rw [hws, if_neg hno, if_pos hpos]
  simp only [sub32, add32]
  rw [wrap32_of_fits h1, wrap32_of_fits h2, wrap32_of_fits h3, wrap32_of_fits h4]

/-- C2, at a concrete configuration: two regions with satellite margins 2 and 3,
no remote region, replication factor 3, anti-quorum 1 and durable-storage quorum 4
tolerate `min(3 + 2 - 2 - 1, 3) = 2` failures. -/
theorem maxMachineFailuresTolerated_satellites_only_witness :
    IsWorstSatellite (configWith 3 1 4 0 [regionWith [1] 4 1 1 [], regionWith [2] 2 0 1 []]) 2 ∧
    (configWith 3 1 4 0
      [regionWith [1] 4 1 1 [], regionWith [2] 2 0 1 []]).maxMachineFailuresTolerated = 2 :=
  ⟨by decide,
   maxMachineFailuresTolerated_satellites_only
     (configWith 3 1 4 0 [regionWith [1] 4 1 1 [], regionWith [2] 2 0 1 []]) 2
     (by decide) (by decide) (by decide) (by decide) (by decide)⟩

/-- C3. For a configuration with an empty region list, whatever its
`remoteTLogReplicationFactor`, `maxMachineFailuresTolerated()` returns
`min(tLogReplicationFactor - 1 - tLogWriteAntiQuorum, durableStorageQuorum - 1)`:
the `int` expression of the last `return`, which is that integer whenever its
subtractions stay in the `int32_t` range. -/
theorem maxMachineFailuresTolerated_no_regions (c : DatabaseConfiguration)
    (h : c.regions = []) :
    c.maxMachineFailuresTolerated =
      min (sub32 (sub32 c.tLogReplicationFactor 1) c.tLogWriteAntiQuorum)
          (sub32 c.durableStorageQuorum 1) ∧
    (PrimaryBranchFits c →
      c.maxMachineFailuresTolerated =
        min (c.tLogReplicationFactor - 1 - c.tLogWriteAntiQuorum)
            (c.durableStorageQuorum - 1)) := by
  have hws : c.worstSatellite = 0 := worstSatellite_nil c h
  have e : c.maxMachineFailuresTolerated =
      min (sub32 (sub32 c.tLogReplicationFactor 1) c.tLogWriteAntiQuorum)
          (sub32 c.durableStorageQuorum 1) := by
    unfold maxMachineFailuresTolerated
    rw [hws]
    simp
  refine ⟨e, ?_⟩
  rintro ⟨h1, h2, h3⟩
  rw [e]
  simp only [sub32]
  rw [wrap32_of_fits h1, wrap32_of_fits h2, wrap32_of_fits h3]

/-- C3, at the configuration of the specification: no regions, replication factor 3,
anti-quorum 0 and durable-storage quorum 3 tolerate 2 failures, here with a remote
replication factor of 2. -/
theorem maxMachineFailuresTolerated_no_regions_witness :
    (configWith 3 0 3 2 []).regions = [] ∧
    PrimaryBranchFits (configWith 3 0 3 2 []) ∧
    (configWith 3 0 3 2 []).maxMachineFailuresTolerated = 2 :=
  ⟨rfl, by decide,
   ((maxMachineFailuresTolerated_no_regions (configWith 3 0 3 2 []) rfl).2 (by decide)).trans
     (by decide)⟩

/-- C4, refuted as stated: with an empty region list and a remote replication factor
of 2 (replication factor 3, anti-quorum 0, durable-storage quorum 3) the worst-satellite
value is 0, not the largest `int`; the guard `remote replication factor > 0 and
worstSatellite > 0` is false; and the result is 2, where the guarded `return` would
give 3. -/
theorem worstSatellite_no_regions_counterexample :
    (configWith 3 0 3 2 []).regions = [] ∧
    0 < (configWith 3 0 3 2 []).remoteTLogReplicationFactor ∧
    (configWith 3 0 3 2 []).worstSatellite = 0 ∧
    (configWith 3 0 3 2 []).worstSatellite ≠ INT32_MAX ∧
    ¬ ((configWith 3 0 3 2 []).remoteTLogReplicationFactor > 0 ∧
        (configWith 3 0 3 2 []).worstSatellite > 0) ∧
    (configWith 3 0 3 2 []).maxMachineFailuresTolerated = 2 ∧
    add32 1 (min (max (sub32 (sub32 3 1) 0) (sub32 INT32_MAX 1)) (sub32 3 1)) = 3 := by
  decide

/-- C4, amended. The worst-satellite value of `maxMachineFailuresTolerated()` is 0 when
the region list is empty, and otherwise the minimum over the regions of the `int`
difference `satelliteTLogReplicationFactor - satelliteTLogWriteAntiQuorum`;
consequently, for an empty region list, whatever the remote replication factor,
neither guard holds and the last `return` gives the result. -/
theorem worstSatellite_spec (c : DatabaseConfiguration) :
    (c.regions = [] →
      c.worstSatellite = 0 ∧
      ¬ (c.remoteTLogReplicationFactor > 0 ∧ c.worstSatellite > 0) ∧
      ¬ (c.worstSatellite > 0) ∧
      c.maxMachineFailuresTolerated =
        min (sub32 (sub32 c.tLogReplicationFactor 1) c.tLogWriteAntiQuorum)
            (sub32 c.durableStorageQuorum 1)) ∧
    (c.regions ≠ [] →
      (∃ r ∈ c.regions, c.worstSatellite =
          sub32 r.satelliteTLogReplicationFactor r.satelliteTLogWriteAntiQuorum) ∧
      (∀ r ∈ c.regions, c.worstSatellite ≤
          sub32 r.satelliteTLogReplicationFactor r.satelliteTLogWriteAntiQuorum) ∧
      (SatelliteMarginsFit c → IsWorstSatellite c c.worstSatellite)) := by
  constructor
  · intro h
    have hws : c.worstSatellite = 0 := worstSatellite_nil c h
    refine ⟨hws, ?_, ?_, ?_⟩
    · rw [hws]; simp
    · rw [hws]; simp
    · unfold maxMachineFailuresTolerated
      rw [hws]
      simp
  · intro h
    obtain ⟨⟨r, hr, e⟩, hall⟩ := worstSatellite_cons c h
    refine ⟨⟨r, hr, e⟩, hall, ?_⟩
    intro hfit
    refine ⟨⟨r, hr, ?_⟩, ?_⟩
    · rw [e, sub32, wrap32_of_fits (hfit r hr)]
    · intro r' hr'
      have := hall r' hr'
      rwa [sub32, wrap32_of_fits (hfit r' hr')] at this

/-- C4 amended, at concrete configurations: without regions and with a remote
replication factor of 2 the worst-satellite value is 0 and the result is 2; with
regions of margins 3 and 2 the worst-satellite value is 2. -/
theorem worstSatellite_spec_witness :
    (configWith 3 0 3 2 []).worstSatellite = 0 ∧
    (configWith 3 0 3 2 []).maxMachineFailuresTolerated = 2 ∧
    IsWorstSatellite (configWith 3 1 4 0 [regionWith [1] 4 1 1 [], regionWith [2] 2 0 1 []]) 2 ∧
    IsWorstSatellite (configWith 3 1 4 0 [regionWith [1] 4 1 1 [], regionWith [2] 2 0 1 []])
      (configWith 3 1 4 0 [regionWith [1] 4 1 1 [], regionWith [2] 2 0 1 []]).worstSatellite :=
  ⟨((worstSatellite_spec (configWith 3 0 3 2 [])).1 rfl).1,
   (((worstSatellite_spec (configWith 3 0 3 2 [])).1 rfl).2.2.2).trans (by decide),
   by decide,
   ((worstSatellite_spec
      (configWith 3 1 4 0 [regionWith [1] 4 1 1 [], regionWith [2] 2 0 1 []])).2
      (by decide)).2.2 (by decide)⟩

/-! ## `minDatacentersRequired()` and `minMachinesRequiredPerDatacenter()` -/

/-- C5, refuted as stated: for a single region with 2147483647 satellites the sum over
the regions of `1 +` the number of satellites is 2147483648, and
`minDatacentersRequired()`, an `int32_t`, is -2147483648. -/
theorem minDatacentersRequired_eq_sum_counterexample :
    datacenterCount (configWithSatellites 2147483647) = 2147483648 ∧
    (configWithSatellites 2147483647).minDatacentersRequired = -2147483648 ∧
    (configWithSatellites 2147483647).minDatacentersRequired ≠
      datacenterCount (configWithSatellites 2147483647) := by
  obtain ⟨hc, hm⟩ := minDatacentersRequired_configWithSatellites 2147483647
  have e : (1 : Int) + ((2147483647 : Nat) : Int) = 2147483648 := by norm_num
  rw [e] at hc hm
  have hw : wrap32 2147483648 = -2147483648 := by decide
  rw [hw] at hm
  refine ⟨hc, hm, ?_⟩
  rw [hc, hm]
  decide

/-- C5, amended. `minDatacentersRequired()` is the sum over the regions of `1 +` the
number of satellites of the region, reduced to an `int32_t`: it is 0 for an empty
region list, and whenever the sum is at most the largest `int32_t` it is exactly the
sum, which is the number of regions plus the total number of satellites. -/
theorem minDatacentersRequired_eq_sum (c : DatabaseConfiguration) :
    c.minDatacentersRequired = wrap32 (datacenterCount c) ∧
    (c.regions = [] → c.minDatacentersRequired = 0) ∧
    (datacenterCount c ≤ INT32_MAX →
      c.minDatacentersRequired = datacenterCount c ∧
      c.minDatacentersRequired = (c.regions.length : Int) + satelliteCount c) := by
  refine ⟨minDatacentersRequired_eq_wrap32 c, ?_, ?_⟩
  · intro h
    simp [minDatacentersRequired, h]
  · intro h
    have e : c.minDatacentersRequired = datacenterCount c := by
      rw [minDatacentersRequired_eq_wrap32]
      apply wrap32_of_fits
      have := datacenterCount_nonneg c
      unfold fitsInt32 INT32_MIN
      omega
    exact ⟨e, e.trans (datacenterCount_eq c)⟩

/-- C5 amended, at concrete configurations: no regions need 0 datacenters; two regions
with 2 and 0 satellites need `(1 + 2) + (1 + 0) = 2 + 2 = 4`. -/
theorem minDatacentersRequired_eq_sum_witness :
    (configWith 3 0 3 0 []).minDatacentersRequired = 0 ∧
    (configWith 3 0 3 0
      [regionWith [1] 2 0 1 [⟨[3], 1⟩, ⟨[4], 0⟩], regionWith [2] 0 0 1 []]).minDatacentersRequired
      = 4 :=
  ⟨(minDatacentersRequired_eq_sum (configWith 3 0 3 0 [])).2.1 rfl,
   (((minDatacentersRequired_eq_sum (configWith 3 0 3 0
      [regionWith [1] 2 0 1 [⟨[3], 1⟩, ⟨[4], 0⟩], regionWith [2] 0 0 1 []])).2.2
      (by decide)).2).trans (by decide)⟩

/-- C6, refuted as stated: for a single region with 2147483646 satellites
`minDatacentersRequired()` is 2147483647, and after one more satellite is inserted in
that region it is -2147483648, which is smaller. -/
theorem minDatacentersRequired_addSatellite_counterexample :
    0 < (configWithSatellites 2147483646).regions.length ∧
    (configWithSatellites 2147483646).minDatacentersRequired = 2147483647 ∧
    ((configWithSatellites 2147483646).addSatellite 0 0
      SatelliteInfo.new).minDatacentersRequired = -2147483648 ∧
    ¬ ((configWithSatellites 2147483646).minDatacentersRequired ≤
       ((configWithSatellites 2147483646).addSatellite 0 0
         SatelliteInfo.new).minDatacentersRequired) := by
  obtain ⟨_, hm⟩ := minDatacentersRequired_configWithSatellites 2147483646
  obtain ⟨hlen, hm2⟩ :=
    minDatacentersRequired_configWithSatellites_add 2147483646 SatelliteInfo.new
  have e : (1 : Int) + ((2147483646 : Nat) : Int) = 2147483647 := by norm_num
  have e2 : (1 : Int) + ((2147483646 : Nat) : Int) + 1 = 2147483648 := by norm_num
  rw [e] at hm
  rw [e2] at hm2
  have hw : wrap32 2147483647 = 2147483647 := by decide
  have hw2 : wrap32 2147483648 = -2147483648 := by decide
  rw [hw] at hm
  rw [hw2] at hm2
  refine ⟨hlen, hm, hm2, ?_⟩
  rw [hm, hm2]
  decide

/-- C6, amended. Inserting a satellite anywhere in the satellite list of a region of
the configuration adds one to `minDatacentersRequired()` in `int32_t` arithmetic;
whenever the new sum over the regions of `1 +` the number of satellites is at most the
largest `int32_t`, the result is exactly one larger, so it does not decrease. -/
theorem minDatacentersRequired_addSatellite (c : DatabaseConfiguration) (i j : Nat)
    (s : SatelliteInfo) (hi : i < c.regions.length) :
    (c.addSatellite i j s).minDatacentersRequired = add32 c.minDatacentersRequired 1 ∧
    (datacenterCount (c.addSatellite i j s) ≤ INT32_MAX →
      (c.addSatellite i j s).minDatacentersRequired = c.minDatacentersRequired + 1 ∧
      c.minDatacentersRequired ≤ (c.addSatellite i j s).minDatacentersRequired) := by
  have hsum : datacenterCount (c.addSatellite i j s) = datacenterCount c + 1 :=
    sum_addSatelliteAt i j s c.regions hi
  constructor
  · rw [minDatacentersRequired_eq_wrap32, minDatacentersRequired_eq_wrap32, hsum, add32,
      wrap32_wrap32_add]
  · intro h
    have h0 := datacenterCount_nonneg c
    have e1 : (c.addSatellite i j s).minDatacentersRequired = datacenterCount c + 1 := by
      rw [minDatacentersRequired_eq_wrap32, hsum]
      apply wrap32_of_fits
      unfold fitsInt32 INT32_MIN
      omega
    have e2 : c.minDatacentersRequired = datacenterCount c := by
      rw [minDatacentersRequired_eq_wrap32]
      apply wrap32_of_fits
      unfold fitsInt32 INT32_MIN
      omega
    rw [e1, e2]
    exact ⟨rfl, by omega⟩

/-- C6 amended, at a concrete configuration: a satellite inserted at position 1 of the
two satellites of the first of two regions raises the requirement from 4 to 5. -/
theorem minDatacentersRequired_addSatellite_witness :
    (configWith 3 0 3 0
      [regionWith [1] 2 0 1 [⟨[3], 1⟩, ⟨[4], 0⟩], regionWith [2] 0 0 1 []]).minDatacentersRequired
      = 4 ∧
    ((configWith 3 0 3 0
      [regionWith [1] 2 0 1 [⟨[3], 1⟩, ⟨[4], 0⟩], regionWith [2] 0 0 1 []]).addSatellite 0 1
        ⟨[5], 7⟩).minDatacentersRequired = 4 + 1 :=
  ⟨by decide,
   ((minDatacentersRequired_addSatellite (configWith 3 0 3 0
      [regionWith [1] 2 0 1 [⟨[3], 1⟩, ⟨[4], 0⟩], regionWith [2] 0 0 1 []]) 0 1 ⟨[5], 7⟩
      (by decide)).2 (by decide)).1.trans (by decide)⟩

/-- C7. `minMachinesRequiredPerDatacenter()` is the maximum of
`remoteTLogReplicationFactor`, `tLogReplicationFactor`, `storageTeamSize` and, for
each region, the truncating quotient
`satelliteTLogReplicationFactor / max(1, satelliteTLogUsableDcs)`: it is at least
each of these values and equal to one of them. -/
theorem minMachinesRequiredPerDatacenter_is_max (c : DatabaseConfiguration) :
    c.remoteTLogReplicationFactor ≤ c.minMachinesRequiredPerDatacenter ∧
    c.tLogReplicationFactor ≤ c.minMachinesRequiredPerDatacenter ∧
    c.storageTeamSize ≤ c.minMachinesRequiredPerDatacenter ∧
    (∀ r ∈ c.regions,
      r.satelliteTLogReplicationFactor.tdiv (max 1 r.satelliteTLogUsableDcs) ≤
        c.minMachinesRequiredPerDatacenter) ∧
    (c.minMachinesRequiredPerDatacenter = c.remoteTLogReplicationFactor ∨
     c.minMachinesRequiredPerDatacenter = c.tLogReplicationFactor ∨
     c.minMachinesRequiredPerDatacenter = c.storageTeamSize ∨
     ∃ r ∈ c.regions, c.minMachinesRequiredPerDatacenter =
       r.satelliteTLogReplicationFactor.tdiv (max 1 r.satelliteTLogUsableDcs)) := by
  obtain ⟨h1, h2, h3⟩ := foldl_max_spec
    (fun r : RegionInfo =>
      r.satelliteTLogReplicationFactor.tdiv (max 1 r.satelliteTLogUsableDcs))
    c.regions
    (max c.remoteTLogReplicationFactor (max c.tLogReplicationFactor c.storageTeamSize))
  unfold minMachinesRequiredPerDatacenter
  refine ⟨le_trans (le_max_left _ _) h1,
    le_trans (le_trans (le_max_left _ _) (le_max_right _ _)) h1,
    le_trans (le_trans (le_max_right _ _) (le_max_right _ _)) h1, h2, ?_⟩
  rcases h3 with h | h
  · rw [h]
    rcases max_choice c.remoteTLogReplicationFactor
        (max c.tLogReplicationFactor c.storageTeamSize) with e | e
    · left; exact e
    · rw [e]
      rcases max_choice c.tLogReplicationFactor c.storageTeamSize with e' | e'
      · right; left; exact e'
      · right; right; left; exact e'
  · right; right; right; exact h

/-! ## `getRegion` and `expectedLogSets` -/

/-- C8. `expectedLogSets(d)` is 1, plus 1 if `d` is present and the satellite
replication factor of `getRegion(d)` is positive, plus 1 if
`remoteTLogReplicationFactor` is positive; when `d` is absent or names no
configured region the satellite increment is not applied. -/
theorem expectedLogSets_spec (c : DatabaseConfiguration) (d : Option Key) :
    c.expectedLogSets d =
      1 + (if d.isSome = true ∧ 0 < (c.getRegion d).satelliteTLogReplicationFactor
            then 1 else 0)
        + (if 0 < c.remoteTLogReplicationFactor then 1 else 0) ∧
    ((d = none ∨ ∀ r ∈ c.regions, some r.dcId ≠ d) →
      c.expectedLogSets d = 1 + (if 0 < c.remoteTLogReplicationFactor then 1 else 0)) := by
  constructor
  · cases d with
    | none =>
      unfold expectedLogSets
      by_cases h2 : 0 < c.remoteTLogReplicationFactor <;> simp [h2]
    | some k =>
      unfold expectedLogSets
      by_cases h1 : 0 < (c.getRegion (some k)).satelliteTLogReplicationFactor <;>
        by_cases h2 : 0 < c.remoteTLogReplicationFactor <;> simp [h1, h2]
  · intro h
    cases d with
    | none =>
      unfold expectedLogSets
      by_cases h2 : 0 < c.remoteTLogReplicationFactor <;> simp [h2]
    | some k =>
      have hno : ∀ r ∈ c.regions, r.dcId ≠ k := by
        rcases h with h | h
        · exact absurd h (by simp)
        · intro r hr e
          exact h r hr (by rw [e])
      have hreg : c.getRegion (some k) = RegionInfo.new :=
        getRegionLoop_of_no_match k c.regions hno
      unfold expectedLogSets
      by_cases h2 : 0 < c.remoteTLogReplicationFactor <;> simp [hreg, RegionInfo.new, h2]

/-- C8, at concrete configurations with a remote region: a datacenter whose region
has satellite replication factor 2 expects 3 log sets, an absent datacenter id and an
unknown datacenter id expect 2. -/
theorem expectedLogSets_spec_witness :
    (configWith 3 0 3 2 [regionWith [1] 2 0 1 []]).expectedLogSets (some [1]) = 3 ∧
    (configWith 3 0 3 2 [regionWith [1] 2 0 1 []]).expectedLogSets none = 2 ∧
    (configWith 3 0 3 2 [regionWith [1] 2 0 1 []]).expectedLogSets (some [9]) = 2 :=
  ⟨((expectedLogSets_spec (configWith 3 0 3 2 [regionWith [1] 2 0 1 []]) (some [1])).1).trans
     (by decide),
   ((expectedLogSets_spec (configWith 3 0 3 2 [regionWith [1] 2 0 1 []]) none).2
     (Or.inl rfl)).trans (by decide),
   ((expectedLogSets_spec (configWith 3 0 3 2 [regionWith [1] 2 0 1 []]) (some [9])).2
     (Or.inr (by decide))).trans (by decide)⟩

/-- C9. If `d` is present and some region has that `dcId`, `getRegion(d)` is the first
such region of the list, unchanged; if `d` is absent or no region has that `dcId`, it
is the default `RegionInfo`, whose priority is 0, satellite list empty, satellite
replication factor 0, satellite anti-quorum 0, satellite desired log count -1 and
usable datacenter count 1. -/
theorem getRegion_spec (c : DatabaseConfiguration) (d : Option Key) :
    (∀ k, d = some k → (∃ r ∈ c.regions, r.dcId = k) →
      ∃ pre r post, c.regions = pre ++ r :: post ∧ r.dcId = k ∧
        (∀ x ∈ pre, x.dcId ≠ k) ∧ c.getRegion d = r) ∧
    ((d = none ∨ ∃ k, d = some k ∧ ∀ r ∈ c.regions, r.dcId ≠ k) →
      c.getRegion d = RegionInfo.new) ∧
    (RegionInfo.new.priority = 0 ∧ RegionInfo.new.satellites = [] ∧
      RegionInfo.new.satelliteTLogReplicationFactor = 0 ∧
      RegionInfo.new.satelliteTLogWriteAntiQuorum = 0 ∧
      RegionInfo.new.satelliteDesiredTLogCount = -1 ∧
      RegionInfo.new.satelliteTLogUsableDcs = 1) := by
  refine ⟨?_, ?_, ⟨rfl, rfl, rfl, rfl, rfl, rfl⟩⟩
  · rintro k rfl h
    exact getRegionLoop_first_match k c.regions h
  · rintro (rfl | ⟨k, rfl, h⟩)
    · rfl
    · exact getRegionLoop_of_no_match k c.regions h

/-- C9, at a concrete configuration whose second and third regions share the id `[2]`:
the lookup of `[2]` gives the second region, the lookup of an unknown id and of an
absent id give the default region. -/
theorem getRegion_spec_witness :
    (∃ pre r post,
      (configWith 3 0 3 0
        [regionWith [1] 1 0 1 [], regionWith [2] 2 0 1 [], regionWith [2] 3 0 1 []]).regions
        = pre ++ r :: post ∧ r.dcId = [2] ∧ (∀ x ∈ pre, x.dcId ≠ [2]) ∧
      (configWith 3 0 3 0
        [regionWith [1] 1 0 1 [], regionWith [2] 2 0 1 [], regionWith [2] 3 0 1 []]).getRegion
        (some [2]) = r) ∧
    (configWith 3 0 3 0
      [regionWith [1] 1 0 1 [], regionWith [2] 2 0 1 [], regionWith [2] 3 0 1 []]).getRegion
      (some [2]) = regionWith [2] 2 0 1 [] ∧
    (configWith 3 0 3 0
      [regionWith [1] 1 0 1 [], regionWith [2] 2 0 1 [], regionWith [2] 3 0 1 []]).getRegion
      (some [9]) = RegionInfo.new ∧
    (configWith 3 0 3 0
      [regionWith [1] 1 0 1 [], regionWith [2] 2 0 1 [], regionWith [2] 3 0 1 []]).getRegion
      none = RegionInfo.new :=
  ⟨(getRegion_spec (configWith 3 0 3 0
      [regionWith [1] 1 0 1 [], regionWith [2] 2 0 1 [], regionWith [2] 3 0 1 []])
      (some [2])).1 [2] rfl (by decide),
   by decide,
   (getRegion_spec (configWith 3 0 3 0
      [regionWith [1] 1 0 1 [], regionWith [2] 2 0 1 [], regionWith [2] 3 0 1 []])
      (some [9])).2.1 (Or.inr ⟨[9], rfl, by decide⟩),
   (getRegion_spec (configWith 3 0 3 0
      [regionWith [1] 1 0 1 [], regionWith [2] 2 0 1 [], regionWith [2] 3 0 1 []])
      none).2.1 (Or.inl rfl)⟩

/-! ## Desired counts -/

/-- C10. Each of `getDesiredProxies()`, `getDesiredResolvers()` and `getDesiredLogs()`
returns the automatic field when the explicit field is -1 and the explicit field
otherwise, negative values other than -1 included; with the explicit field at -1,
setting only the automatic field to `v` makes the accessor return `v`. -/
theorem getDesired_auto_fallback (c : DatabaseConfiguration) :
    ((c.masterProxyCount = -1 → c.getDesiredProxies = c.autoMasterProxyCount) ∧
     (c.masterProxyCount ≠ -1 → c.getDesiredProxies = c.masterProxyCount) ∧
     (∀ v : Int, c.masterProxyCount = -1 →
        getDesiredProxies { c with autoMasterProxyCount := v } = v)) ∧
    ((c.resolverCount = -1 → c.getDesiredResolvers = c.autoResolverCount) ∧
     (c.resolverCount ≠ -1 → c.getDesiredResolvers = c.resolverCount) ∧
     (∀ v : Int, c.resolverCount = -1 →
        getDesiredResolvers { c with autoResolverCount := v } = v)) ∧
    ((c.desiredTLogCount = -1 → c.getDesiredLogs = c.autoDesiredTLogCount) ∧
     (c.desiredTLogCount ≠ -1 → c.getDesiredLogs = c.desiredTLogCount) ∧
     (∀ v : Int, c.desiredTLogCount = -1 →
        getDesiredLogs { c with autoDesiredTLogCount := v } = v)) := by
  refine ⟨⟨?_, ?_, ?_⟩, ⟨?_, ?_, ?_⟩, ⟨?_, ?_, ?_⟩⟩
  · intro h; simp [getDesiredProxies, h]
  · intro h; simp [getDesiredProxies, h]
  · intro v h; simp [getDesiredProxies, h]
  · intro h; simp [getDesiredResolvers, h]
  · intro h; simp [getDesiredResolvers, h]
  · intro v h; simp [getDesiredResolvers, h]
  · intro h; simp [getDesiredLogs, h]
  · intro h; simp [getDesiredLogs, h]
  · intro v h; simp [getDesiredLogs, h]

/-- C10, at concrete configurations: with every explicit count at -1 the accessors
give the automatic counts 3, 1 and 8, and 12 after the automatic proxy count is set to
12; with the explicit counts at -5, 0 and 4 they give -5, 0 and 4. -/
theorem getDesired_auto_fallback_witness :
    (configWith 3 0 3 0 []).getDesiredProxies = 3 ∧
    (configWith 3 0 3 0 []).getDesiredResolvers = 1 ∧
    (configWith 3 0 3 0 []).getDesiredLogs = 8 ∧
    getDesiredProxies { configWith 3 0 3 0 [] with autoMasterProxyCount := 12 } = 12 ∧
    getDesiredProxies { configWith 3 0 3 0 [] with masterProxyCount := -5 } = -5 ∧
    getDesiredResolvers { configWith 3 0 3 0 [] with resolverCount := 0 } = 0 ∧
    getDesiredLogs { configWith 3 0 3 0 [] with desiredTLogCount := 4 } = 4 :=
  ⟨(getDesired_auto_fallback (configWith 3 0 3 0 [])).1.1 rfl,
   (getDesired_auto_fallback (configWith 3 0 3 0 [])).2.1.1 rfl,
   (getDesired_auto_fallback (configWith 3 0 3 0 [])).2.2.1 rfl,
   (getDesired_auto_fallback (configWith 3 0 3 0 [])).1.2.2 12 rfl,
   (getDesired_auto_fallback
      { configWith 3 0 3 0 [] with masterProxyCount := -5 }).1.2.1 (by decide),
   (getDesired_auto_fallback
      { configWith 3 0 3 0 [] with resolverCount := 0 }).2.1.2.1 (by decide),
   (getDesired_auto_fallback
      { configWith 3 0 3 0 [] with desiredTLogCount := 4 }).2.2.2.1 (by decide)⟩

/-- C11. `getDesiredRemoteLogs()` is `remoteDesiredTLogCount` when that field is not
-1 and `getDesiredLogs()` when it is -1; so with `remoteDesiredTLogCount` at -1 it is
`desiredTLogCount` when that is not -1 and `autoDesiredTLogCount` when it is. -/
theorem getDesiredRemoteLogs_spec (c : DatabaseConfiguration) :
    (c.remoteDesiredTLogCount ≠ -1 → c.getDesiredRemoteLogs = c.remoteDesiredTLogCount) ∧
    (c.remoteDesiredTLogCount = -1 → c.getDesiredRemoteLogs = c.getDesiredLogs) ∧
    (c.remoteDesiredTLogCount = -1 → c.desiredTLogCount ≠ -1 →
      c.getDesiredRemoteLogs = c.desiredTLogCount) ∧
    (c.remoteDesiredTLogCount = -1 → c.desiredTLogCount = -1 →
      c.getDesiredRemoteLogs = c.autoDesiredTLogCount) := by
  refine ⟨?_, ?_, ?_, ?_⟩
  · intro h; simp [getDesiredRemoteLogs, h]
  · intro h; simp [getDesiredRemoteLogs, h]
  · intro h h2; simp [getDesiredRemoteLogs, getDesiredLogs, h, h2]
  · intro h h2; simp [getDesiredRemoteLogs, getDesiredLogs, h, h2]

/-- C11, at concrete configurations: with all three fields at their defaults (-1, -1,
automatic count 8) the remote count is 8; with `desiredTLogCount` 4 it is 4; with
`remoteDesiredTLogCount` 6 it is 6. -/
theorem getDesiredRemoteLogs_spec_witness :
    (configWith 3 0 3 0 []).getDesiredRemoteLogs = 8 ∧
    getDesiredRemoteLogs { configWith 3 0 3 0 [] with desiredTLogCount := 4 } = 4 ∧
    getDesiredRemoteLogs
      { configWith 3 0 3 0 [] with desiredTLogCount := 4, remoteDesiredTLogCount := 6 } = 6 :=
  ⟨(getDesiredRemoteLogs_spec (configWith 3 0 3 0 [])).2.2.2 rfl rfl,
   (getDesiredRemoteLogs_spec
      { configWith 3 0 3 0 [] with desiredTLogCount := 4 }).2.2.1 rfl (by decide),
   (getDesiredRemoteLogs_spec
      { configWith 3 0 3 0 [] with desiredTLogCount := 4, remoteDesiredTLogCount := 6 }).1
      (by decide)⟩

/-- C12. `getDesiredSatelliteLogs(d)` is the `satelliteDesiredTLogCount` of
`getRegion(d)` when that is not -1 and `autoDesiredTLogCount` when it is -1, whatever
`desiredTLogCount` is; it is `autoDesiredTLogCount` whenever `d` is absent or names no
configured region. -/
theorem getDesiredSatelliteLogs_spec (c : DatabaseConfiguration) (d : Option Key) :
    ((c.getRegion d).satelliteDesiredTLogCount ≠ -1 →
      c.getDesiredSatelliteLogs d = (c.getRegion d).satelliteDesiredTLogCount) ∧
    ((c.getRegion d).satelliteDesiredTLogCount = -1 →
      c.getDesiredSatelliteLogs d = c.autoDesiredTLogCount) ∧
    (∀ v : Int, getDesiredSatelliteLogs { c with desiredTLogCount := v } d =
      c.getDesiredSatelliteLogs d) ∧
    ((d = none ∨ ∀ r ∈ c.regions, some r.dcId ≠ d) →
      c.getDesiredSatelliteLogs d = c.autoDesiredTLogCount) := by
  refine ⟨?_, ?_, ?_, ?_⟩
  · intro h; simp [getDesiredSatelliteLogs, h]
  · intro h; simp [getDesiredSatelliteLogs, h]
  · intro v; rfl
  · intro h
    have hreg : c.getRegion d = RegionInfo.new := by
      cases d with
      | none => rfl
      | some k =>
        apply getRegionLoop_of_no_match
        rcases h with h | h
        · exact absurd h (by simp)
        · intro r hr e
          exact h r hr (by rw [e])
    simp [getDesiredSatelliteLogs, hreg, RegionInfo.new]

/-- C12, at a concrete configuration with automatic log count 8, explicit log count 4
and one region `[1]` whose satellite desired log count is 5: the region's datacenter
gets 5, an unknown datacenter and an absent one get 8. -/
theorem getDesiredSatelliteLogs_spec_witness :
    getDesiredSatelliteLogs
      { configWith 3 0 3 0 [{ regionWith [1] 2 0 1 [] with satelliteDesiredTLogCount := 5 }]
        with desiredTLogCount := 4 } (some [1]) = 5 ∧
    getDesiredSatelliteLogs
      { configWith 3 0 3 0 [{ regionWith [1] 2 0 1 [] with satelliteDesiredTLogCount := 5 }]
        with desiredTLogCount := 4 } (some [9]) = 8 ∧
    getDesiredSatelliteLogs
      { configWith 3 0 3 0 [{ regionWith [1] 2 0 1 [] with satelliteDesiredTLogCount := 5 }]
        with desiredTLogCount := 4 } none = 8 :=
  ⟨((getDesiredSatelliteLogs_spec
      { configWith 3 0 3 0 [{ regionWith [1] 2 0 1 [] with satelliteDesiredTLogCount := 5 }]
        with desiredTLogCount := 4 } (some [1])).1 (by decide)).trans (by decide),
   (getDesiredSatelliteLogs_spec
      { configWith 3 0 3 0 [{ regionWith [1] 2 0 1 [] with satelliteDesiredTLogCount := 5 }]
        with desiredTLogCount := 4 } (some [9])).2.2.2 (Or.inr (by decide)),
   (getDesiredSatelliteLogs_spec
      { configWith 3 0 3 0 [{ regionWith [1] 2 0 1 [] with satelliteDesiredTLogCount := 5 }]
        with desiredTLogCount := 4 } none).2.2.2 (Or.inl rfl)⟩

/-! ## Equality and bulk load -/

/-- C13. For two configurations in canonical form (no buffered mutable map) `a == b`
holds exactly when their raw key/value sequences are the same list of entries; the
result depends on no other field: any two canonical configurations with the same raw
sequences as `a` and `b` compare the same way. -/
theorem operatorEq_iff_raw (a b : DatabaseConfiguration)
    (ha : a.mutableConfiguration = none) (hb : b.mutableConfiguration = none) :
    (a.operatorEq b = true ↔ a.rawConfiguration = b.rawConfiguration) ∧
    (∀ a' b' : DatabaseConfiguration,
      a'.mutableConfiguration = none → b'.mutableConfiguration = none →
      a'.rawConfiguration = a.rawConfiguration → b'.rawConfiguration = b.rawConfiguration →
      a'.operatorEq b' = a.operatorEq b) := by
  constructor
  · unfold operatorEq
    rw [makeConfigurationImmutable_of_none a ha, makeConfigurationImmutable_of_none b hb]
    exact decide_eq_true_iff
  · intro a' b' ha' hb' e1 e2
    unfold operatorEq
    rw [makeConfigurationImmutable_of_none a ha, makeConfigurationImmutable_of_none b hb,
      makeConfigurationImmutable_of_none a' ha', makeConfigurationImmutable_of_none b' hb',
      e1, e2]

/-- C13, at concrete configurations: two configurations whose structured fields all
agree and whose raw sequences differ by the entry of an unknown key `[9]` are unequal;
two whose raw sequences agree and whose structured fields differ are equal. -/
theorem operatorEq_iff_raw_witness :
    operatorEq { configWith 3 0 3 0 [] with rawConfiguration := [([1], [2])] }
      { configWith 3 0 3 0 [] with rawConfiguration := [([1], [2]), ([9], [9])] } = false ∧
    operatorEq { configWith 3 0 3 0 [] with rawConfiguration := [([1], [2])] }
      { configWith 5 1 4 2 [regionWith [1] 2 0 1 []] with rawConfiguration := [([1], [2])] }
      = true :=
  ⟨Bool.eq_false_iff.mpr (fun h =>
      absurd ((operatorEq_iff_raw
        { configWith 3 0 3 0 [] with rawConfiguration := [([1], [2])] }
        { configWith 3 0 3 0 [] with rawConfiguration := [([1], [2]), ([9], [9])] }
        rfl rfl).1.mp h) (by decide)),
   (operatorEq_iff_raw { configWith 3 0 3 0 [] with rawConfiguration := [([1], [2])] }
      { configWith 5 1 4 2 [regionWith [1] 2 0 1 []] with rawConfiguration := [([1], [2])] }
      rfl rfl).1.mpr rfl⟩

/-- C14. After `fromKeyValues(R)` the stored raw sequence is `R` itself, the same
entries in the same order, whatever keys it holds; and the configuration is the result of
resetting, storing `R`, decoding every entry of `R` in sequence order with `setInternal`,
and applying `setDefaultReplicationPolicy` once. -/
theorem fromKeyValues_spec (D : Decoder) (c : DatabaseConfiguration) (R : List (Key × Key)) :
    (fromKeyValues D c R).rawConfiguration = R ∧
    fromKeyValues D c R =
      D.setDefaultReplicationPolicy
        (R.foldl (fun s kv => (D.setInternal kv.1 kv.2 s).2)
          { D.resetInternal c with rawConfiguration := R }) := by
  refine ⟨?_, rfl⟩
  unfold fromKeyValues
  simp only
  rw [D.setDefaultReplicationPolicy_raw, foldl_setInternal_raw]

/-- C14, at a concrete decoder and sequence: loading the entries of keys `[112]`, the
unknown `[9]` and `[114]` keeps the three entries in that order and decodes a proxy
count of 3 and a replication factor of 2, with the default policy applied. -/
theorem fromKeyValues_spec_witness :
    (fromKeyValues exampleDecoder (configWith 3 0 3 0 [])
      [([112], [0, 0, 0]), ([9], [7]), ([114], [0, 0])]).rawConfiguration =
      [([112], [0, 0, 0]), ([9], [7]), ([114], [0, 0])] ∧
    (fromKeyValues exampleDecoder (configWith 3 0 3 0 [])
      [([112], [0, 0, 0]), ([9], [7]), ([114], [0, 0])]).masterProxyCount = 3 ∧
    (fromKeyValues exampleDecoder (configWith 3 0 3 0 [])
      [([112], [0, 0, 0]), ([9], [7]), ([114], [0, 0])]).tLogReplicationFactor = 2 ∧
    (fromKeyValues exampleDecoder (configWith 3 0 3 0 [])
      [([112], [0, 0, 0]), ([9], [7]), ([114], [0, 0])]).tLogPolicy = some 1 :=
  ⟨(fromKeyValues_spec exampleDecoder (configWith 3 0 3 0 [])
      [([112], [0, 0, 0]), ([9], [7]), ([114], [0, 0])]).1,
   by decide, by decide, by decide⟩

/-! ## `maxMachineFailuresTolerated()`: special cases and bounds -/

/-- C15. A configuration with `remoteTLogReplicationFactor` 0 and exactly one region,
whose satellite replication factor and satellite anti-quorum are 0, has the same
`maxMachineFailuresTolerated()` as the same configuration with an empty region list,
namely `min(tLogReplicationFactor - 1 - tLogWriteAntiQuorum, durableStorageQuorum - 1)`:
the `int` expression of the last `return`, which is that integer whenever its
subtractions stay in the `int32_t` range. -/
theorem maxMachineFailuresTolerated_one_region_no_satellites (c : DatabaseConfiguration)
    (r : RegionInfo) (hreg : c.regions = [r])
    (hrf : r.satelliteTLogReplicationFactor = 0) (haq : r.satelliteTLogWriteAntiQuorum = 0)
    (_hremote : c.remoteTLogReplicationFactor = 0) :
    c.maxMachineFailuresTolerated = maxMachineFailuresTolerated { c with regions := [] } ∧
    c.maxMachineFailuresTolerated =
      min (sub32 (sub32 c.tLogReplicationFactor 1) c.tLogWriteAntiQuorum)
          (sub32 c.durableStorageQuorum 1) ∧
    (PrimaryBranchFits c →
      c.maxMachineFailuresTolerated =
        min (c.tLogReplicationFactor - 1 - c.tLogWriteAntiQuorum)
            (c.durableStorageQuorum - 1)) := by
  have hws : c.worstSatellite = 0 := by
    rw [worstSatellite_singleton c r hreg, hrf, haq]; decide
  have e := maxMachineFailuresTolerated_of_worstSatellite_nonpos c (le_of_eq hws)
  have hws0 : worstSatellite { c with regions := [] } = 0 := worstSatellite_nil _ rfl
  have e0 := maxMachineFailuresTolerated_of_worstSatellite_nonpos { c with regions := [] }
    (le_of_eq hws0)
  refine ⟨e.trans e0.symm, e, ?_⟩
  rintro ⟨h1, h2, h3⟩
  rw [e]
  simp only [sub32]
  rw [wrap32_of_fits h1, wrap32_of_fits h2, wrap32_of_fits h3]

/-- C15, at the configuration of the specification: one region without satellites, no
remote region, replication factor 3, anti-quorum 0 and durable-storage quorum 3
tolerate 2 failures, as the same configuration without regions does. -/
theorem maxMachineFailuresTolerated_one_region_no_satellites_witness :
    (configWith 3 0 3 0 [regionWith [1] 0 0 1 []]).maxMachineFailuresTolerated = 2 ∧
    (configWith 3 0 3 0 [regionWith [1] 0 0 1 []]).maxMachineFailuresTolerated =
      maxMachineFailuresTolerated
        { configWith 3 0 3 0 [regionWith [1] 0 0 1 []] with regions := [] } :=
  ⟨((maxMachineFailuresTolerated_one_region_no_satellites
      (configWith 3 0 3 0 [regionWith [1] 0 0 1 []]) (regionWith [1] 0 0 1 [])
      rfl rfl rfl rfl).2.2 (by decide)).trans (by decide),
   (maxMachineFailuresTolerated_one_region_no_satellites
      (configWith 3 0 3 0 [regionWith [1] 0 0 1 []]) (regionWith [1] 0 0 1 [])
      rfl rfl rfl rfl).1⟩

/-- C16, refuted as stated: with one region of satellite replication factor 0 and
anti-quorum 0, no remote region, replication factor 3, anti-quorum 0 and
durable-storage quorum 3, `worstSatellite` is 0, the guard `worstSatellite > 0` of the
second `return` is false, and the result is 2, not the 1 that the expression of the
second `return` would give. -/
theorem maxMachineFailuresTolerated_zero_satellite_counterexample :
    (configWith 3 0 3 0 [regionWith [1] 0 0 1 []]).worstSatellite = 0 ∧
    ¬ ((configWith 3 0 3 0 [regionWith [1] 0 0 1 []]).worstSatellite > 0) ∧
    (configWith 3 0 3 0 [regionWith [1] 0 0 1 []]).maxMachineFailuresTolerated = 2 ∧
    (configWith 3 0 3 0 [regionWith [1] 0 0 1 []]).maxMachineFailuresTolerated ≠ 1 ∧
    min (sub32 (sub32 (add32 3 0) 2) 0) (sub32 3 1) = 1 := by
  decide

/-- C16, amended. For a configuration with one region whose satellite replication
factor and anti-quorum are 0, remote replication factor 0, replication factor 3,
anti-quorum 0 and durable-storage quorum 3, `worstSatellite` is 0, neither guard of
`maxMachineFailuresTolerated()` holds, and the last `return` gives
`min(3 - 1 - 0, 3 - 1) = 2`. -/
theorem maxMachineFailuresTolerated_zero_satellite (c : DatabaseConfiguration)
    (r : RegionInfo) (hreg : c.regions = [r])
    (hrf : r.satelliteTLogReplicationFactor = 0) (haq : r.satelliteTLogWriteAntiQuorum = 0)
    (_hremote : c.remoteTLogReplicationFactor = 0) (hlog : c.tLogReplicationFactor = 3)
    (hanti : c.tLogWriteAntiQuorum = 0) (hq : c.durableStorageQuorum = 3) :
    c.worstSatellite = 0 ∧
    ¬ (c.remoteTLogReplicationFactor > 0 ∧ c.worstSatellite > 0) ∧
    ¬ (c.worstSatellite > 0) ∧
    c.maxMachineFailuresTolerated = min (3 - 1 - 0) (3 - 1) ∧
    c.maxMachineFailuresTolerated = 2 := by
  have hws : c.worstSatellite = 0 := by
    rw [worstSatellite_singleton c r hreg, hrf, haq]; decide
  have e := maxMachineFailuresTolerated_of_worstSatellite_nonpos c (le_of_eq hws)
  rw [hlog, hanti, hq] at e
  have e2 : c.maxMachineFailuresTolerated = 2 := e.trans (by decide)
  refine ⟨hws, ?_, ?_, e2.trans (by decide), e2⟩
  · rw [hws]; simp
  · rw [hws]; simp

/-- C16 amended, at the configuration itself: the result is 2. -/
theorem maxMachineFailuresTolerated_zero_satellite_witness :
    (configWith 3 0 3 0 [regionWith [1] 0 0 1 []]).worstSatellite = 0 ∧
    (configWith 3 0 3 0 [regionWith [1] 0 0 1 []]).maxMachineFailuresTolerated = 2 :=
  ⟨(maxMachineFailuresTolerated_zero_satellite
      (configWith 3 0 3 0 [regionWith [1] 0 0 1 []]) (regionWith [1] 0 0 1 [])
      rfl rfl rfl rfl rfl rfl rfl).1,
   (maxMachineFailuresTolerated_zero_satellite
      (configWith 3 0 3 0 [regionWith [1] 0 0 1 []]) (regionWith [1] 0 0 1 [])
      rfl rfl rfl rfl rfl rfl rfl).2.2.2.2⟩

/-- C17, refuted as stated: without regions, a replication factor of -2147483648 with
anti-quorum 0 (so the anti-quorum is at least the replication factor) and
durable-storage quorum 5 gives 4, because `tLogReplicationFactor - 1` wraps to
2147483647; and a durable-storage quorum of -2147483648 (at most 1) with replication
factor 3 and anti-quorum 0 gives 2, because `durableStorageQuorum - 1` wraps. -/
theorem maxMachineFailuresTolerated_not_clamped_counterexample :
    ((configWith (-2147483648) 0 5 0 []).regions = [] ∧
      (configWith (-2147483648) 0 5 0 []).tLogWriteAntiQuorum ≥
        (configWith (-2147483648) 0 5 0 []).tLogReplicationFactor ∧
      fitsInt32 (configWith (-2147483648) 0 5 0 []).tLogReplicationFactor ∧
      (configWith (-2147483648) 0 5 0 []).maxMachineFailuresTolerated = 4 ∧
      ¬ ((configWith (-2147483648) 0 5 0 []).maxMachineFailuresTolerated ≤ -1)) ∧
    ((configWith 3 0 (-2147483648) 0 []).regions = [] ∧
      (configWith 3 0 (-2147483648) 0 []).durableStorageQuorum ≤ 1 ∧
      fitsInt32 (configWith 3 0 (-2147483648) 0 []).durableStorageQuorum ∧
      (configWith 3 0 (-2147483648) 0 []).maxMachineFailuresTolerated = 2 ∧
      ¬ ((configWith 3 0 (-2147483648) 0 []).maxMachineFailuresTolerated ≤ 0)) := by
  decide

/-- C17, amended. `maxMachineFailuresTolerated()` applies no clamping: with an empty
region list the result is the `int` expression of the last `return` as it is; where
`tLogReplicationFactor - 1` and the subtraction of `tLogWriteAntiQuorum` from it do not
overflow `int32_t`, it is at most -1 when `tLogWriteAntiQuorum >= tLogReplicationFactor`;
and where `durableStorageQuorum - 1` does not overflow, it is at most 0 when
`durableStorageQuorum <= 1`. -/
theorem maxMachineFailuresTolerated_not_clamped (c : DatabaseConfiguration)
    (h : c.regions = []) :
    c.maxMachineFailuresTolerated =
      min (sub32 (sub32 c.tLogReplicationFactor 1) c.tLogWriteAntiQuorum)
          (sub32 c.durableStorageQuorum 1) ∧
    (fitsInt32 (c.tLogReplicationFactor - 1) →
      fitsInt32 (c.tLogReplicationFactor - 1 - c.tLogWriteAntiQuorum) →
      c.tLogReplicationFactor ≤ c.tLogWriteAntiQuorum →
      c.maxMachineFailuresTolerated ≤ -1) ∧
    (fitsInt32 (c.durableStorageQuorum - 1) → c.durableStorageQuorum ≤ 1 →
      c.maxMachineFailuresTolerated ≤ 0) := by
  have e := maxMachineFailuresTolerated_of_worstSatellite_nonpos c
    (le_of_eq (worstSatellite_nil c h))
  refine ⟨e, ?_, ?_⟩
  · intro h1 h2 hle
    rw [e]
    simp only [sub32]
    rw [wrap32_of_fits h1, wrap32_of_fits h2]
    exact le_trans (min_le_left _ _) (by omega)
  · intro h3 hle
    rw [e]
    simp only [sub32]
    rw [wrap32_of_fits h3]
    exact le_trans (min_le_right _ _) (by omega)

/-- C17 amended, at concrete configurations without regions: replication factor 2 with
anti-quorum 3 gives -2, and durable-storage quorum 0 with replication factor 3 and
anti-quorum 0 gives -1. -/
theorem maxMachineFailuresTolerated_not_clamped_witness :
    (configWith 2 3 3 0 []).maxMachineFailuresTolerated = -2 ∧
    (configWith 2 3 3 0 []).maxMachineFailuresTolerated ≤ -1 ∧
    (configWith 3 0 0 0 []).maxMachineFailuresTolerated ≤ 0 :=
  ⟨((maxMachineFailuresTolerated_not_clamped (configWith 2 3 3 0 []) rfl).1).trans
      (by decide),
   (maxMachineFailuresTolerated_not_clamped (configWith 2 3 3 0 []) rfl).2.1
      (by decide) (by decide) (by decide),
   (maxMachineFailuresTolerated_not_clamped (configWith 3 0 0 0 []) rfl).2.2
      (by decide) (by decide)⟩

/-- C18. Where the loop's subtractions and `durableStorageQuorum - 1` of an `int32_t`
quorum do not overflow, `maxMachineFailuresTolerated()` is at most
`durableStorageQuorum`; and it is at most `durableStorageQuorum - 1` whenever
`remoteTLogReplicationFactor <= 0`, or the region list is empty, or some region has
`satelliteTLogReplicationFactor - satelliteTLogWriteAntiQuorum <= 0`. -/
theorem maxMachineFailuresTolerated_le_quorum (c : DatabaseConfiguration)
    (hq : fitsInt32 c.durableStorageQuorum) (hq1 : fitsInt32 (c.durableStorageQuorum - 1))
    (hm : SatelliteMarginsFit c) :
    c.maxMachineFailuresTolerated ≤ c.durableStorageQuorum ∧
    ((c.remoteTLogReplicationFactor ≤ 0 ∨ c.regions = [] ∨
        ∃ r ∈ c.regions,
          r.satelliteTLogReplicationFactor - r.satelliteTLogWriteAntiQuorum ≤ 0) →
      c.maxMachineFailuresTolerated ≤ c.durableStorageQuorum - 1) := by
  have hd : sub32 c.durableStorageQuorum 1 = c.durableStorageQuorum - 1 :=
    wrap32_of_fits hq1
  -- the two unguarded returns
  have hlow : ∀ x : Int, min x (sub32 c.durableStorageQuorum 1) ≤ c.durableStorageQuorum - 1 := by
    intro x
    rw [hd]
    exact min_le_right _ _
  constructor
  · unfold maxMachineFailuresTolerated
    split_ifs with h1 h2
    · have hA := fitsInt32_wrap32
        (sub32 c.tLogReplicationFactor 1 - c.tLogWriteAntiQuorum)
      have hB := fitsInt32_wrap32 (c.worstSatellite - 1)
      have hle := hlow (max (sub32 (sub32 c.tLogReplicationFactor 1) c.tLogWriteAntiQuorum)
        (sub32 c.worstSatellite 1))
      have hge : INT32_MIN ≤
          min (max (sub32 (sub32 c.tLogReplicationFactor 1) c.tLogWriteAntiQuorum)
            (sub32 c.worstSatellite 1)) (sub32 c.durableStorageQuorum 1) := by
        rw [hd]
        exact le_min (le_trans hA.1 (le_max_left _ _)) hq1.1
      have hfit : fitsInt32 (1 +
          min (max (sub32 (sub32 c.tLogReplicationFactor 1) c.tLogWriteAntiQuorum)
            (sub32 c.worstSatellite 1)) (sub32 c.durableStorageQuorum 1)) := by
        unfold fitsInt32 INT32_MIN INT32_MAX at *
        omega
      rw [add32, wrap32_of_fits hfit]
      omega
    · have := hlow (sub32 (sub32 (add32 c.tLogReplicationFactor c.worstSatellite) 2)
        c.tLogWriteAntiQuorum)
      omega
    · have := hlow (sub32 (sub32 c.tLogReplicationFactor 1) c.tLogWriteAntiQuorum)
      omega
  · intro h
    have hno : ¬ (c.remoteTLogReplicationFactor > 0 ∧ c.worstSatellite > 0) := by
      rintro ⟨hr, hw⟩
      rcases h with h | h | ⟨r, hr', hle⟩
      · omega
      · rw [worstSatellite_nil c h] at hw; omega
      · have hne : c.regions ≠ [] := List.ne_nil_of_mem hr'
        have := (worstSatellite_cons c hne).2 r hr'
        rw [sub32, wrap32_of_fits (hm r hr')] at this
        omega
    unfold maxMachineFailuresTolerated
    rw [if_neg hno]
    split_ifs
    · exact hlow _
    · exact hlow _

/-- C18, at concrete configurations with durable-storage quorum 3: with a remote
region and satellites (result 3) the bound is the quorum; without a remote region
(result 2) it is the quorum minus one. -/
theorem maxMachineFailuresTolerated_le_quorum_witness :
    (configWith 3 0 3 2 [regionWith [1] 2 0 1 []]).maxMachineFailuresTolerated ≤ 3 ∧
    (configWith 3 0 3 0 [regionWith [1] 2 0 1 []]).maxMachineFailuresTolerated ≤ 3 - 1 :=
  ⟨(maxMachineFailuresTolerated_le_quorum (configWith 3 0 3 2 [regionWith [1] 2 0 1 []])
      (by decide) (by decide) (by decide)).1,
   (maxMachineFailuresTolerated_le_quorum (configWith 3 0 3 0 [regionWith [1] 2 0 1 []])
      (by decide) (by decide) (by decide)).2 (Or.inl (by decide))⟩

/-- A division by a divisor that is at least 1 is defined and is the truncated
quotient. -/
theorem div32_of_pos (a b : Int) (h : 1 ≤ b) : div32 a b = some (a.tdiv b) := by
  unfold div32
  rw [if_neg]
  rintro (h0 | ⟨_, h0⟩) <;> omega

/-- The checked loop never stops early: it ends at the value of the loop that divides
with the total truncated quotient. -/
theorem minMachinesRequiredLoop_eq (l : List RegionInfo) (init : Int) :
    minMachinesRequiredLoop init l =
      some (l.foldl
        (fun minRequired r =>
          max minRequired
            (r.satelliteTLogReplicationFactor.tdiv (max 1 r.satelliteTLogUsableDcs)))
        init) := by
  induction l generalizing init with
  | nil => rfl
  | cons r rs ih =>
    rw [minMachinesRequiredLoop, div32_of_pos _ _ (le_max_left _ _)]
    exact ih _

/-! ## Order of the regions, and the divisor -/

/-- C19. `maxMachineFailuresTolerated()`, `minDatacentersRequired()` and
`minMachinesRequiredPerDatacenter()` do not depend on the order of the region list: a
configuration that differs only by a permutation of the regions gives the same three
values. -/
theorem derived_quantities_perm (c : DatabaseConfiguration) (l : List RegionInfo)
    (h : l.Perm c.regions) :
    maxMachineFailuresTolerated { c with regions := l } = c.maxMachineFailuresTolerated ∧
    minDatacentersRequired { c with regions := l } = c.minDatacentersRequired ∧
    minMachinesRequiredPerDatacenter { c with regions := l } =
      c.minMachinesRequiredPerDatacenter := by
  refine ⟨?_, ?_, ?_⟩
  · simp only [maxMachineFailuresTolerated, worstSatellite_perm c l h]
  · unfold minDatacentersRequired
    apply List.Perm.foldl_eq' h
    intro x _ y _ z
    rw [wrap32_wrap32_add, wrap32_wrap32_add]
    congr 1
    ring
  · unfold minMachinesRequiredPerDatacenter
    apply List.Perm.foldl_eq' h
    intro x _ y _ z
    simp only [max_assoc]
    rw [max_comm (x.satelliteTLogReplicationFactor.tdiv (max 1 x.satelliteTLogUsableDcs))]

/-- C19, at a concrete configuration with a remote region: the regions of satellite
margins 3 and 2, with 1 and 0 satellites, give 2 tolerated failures, 3 datacenters and 4
machines per datacenter in either order. -/
theorem derived_quantities_perm_witness :
    maxMachineFailuresTolerated
      (configWith 3 1 4 2 [regionWith [2] 2 0 1 [], regionWith [1] 4 1 1 [⟨[3], 0⟩]]) = 2 ∧
    minDatacentersRequired
      (configWith 3 1 4 2 [regionWith [2] 2 0 1 [], regionWith [1] 4 1 1 [⟨[3], 0⟩]]) = 3 ∧
    minMachinesRequiredPerDatacenter
      (configWith 3 1 4 2 [regionWith [2] 2 0 1 [], regionWith [1] 4 1 1 [⟨[3], 0⟩]]) = 4 ∧
    maxMachineFailuresTolerated
      (configWith 3 1 4 2 [regionWith [1] 4 1 1 [⟨[3], 0⟩], regionWith [2] 2 0 1 []]) = 2 ∧
    minDatacentersRequired
      (configWith 3 1 4 2 [regionWith [1] 4 1 1 [⟨[3], 0⟩], regionWith [2] 2 0 1 []]) = 3 ∧
    minMachinesRequiredPerDatacenter
      (configWith 3 1 4 2 [regionWith [1] 4 1 1 [⟨[3], 0⟩], regionWith [2] 2 0 1 []]) = 4 :=
  ⟨((derived_quantities_perm
      (configWith 3 1 4 2 [regionWith [1] 4 1 1 [⟨[3], 0⟩], regionWith [2] 2 0 1 []])
      [regionWith [2] 2 0 1 [], regionWith [1] 4 1 1 [⟨[3], 0⟩]]
      (List.Perm.swap _ _ _)).1).trans (by decide),
   ((derived_quantities_perm
      (configWith 3 1 4 2 [regionWith [1] 4 1 1 [⟨[3], 0⟩], regionWith [2] 2 0 1 []])
      [regionWith [2] 2 0 1 [], regionWith [1] 4 1 1 [⟨[3], 0⟩]]
      (List.Perm.swap _ _ _)).2.1).trans (by decide),
   ((derived_quantities_perm
      (configWith 3 1 4 2 [regionWith [1] 4 1 1 [⟨[3], 0⟩], regionWith [2] 2 0 1 []])
      [regionWith [2] 2 0 1 [], regionWith [1] 4 1 1 [⟨[3], 0⟩]]
      (List.Perm.swap _ _ _)).2.2).trans (by decide),
   by decide, by decide, by decide⟩

/-- C20. In `minMachinesRequiredPerDatacenter()` the divisor
`max(1, satelliteTLogUsableDcs)` is at least 1 for every region of every configuration,
whatever the value of `satelliteTLogUsableDcs`, so no division of the loop is undefined:
the function with checked division always returns, and returns the value of the
function. Every region with `satelliteTLogUsableDcs <= 1` contributes exactly its
`satelliteTLogReplicationFactor` to the maximum, every other region its replication
factor divided by its usable datacenter count. -/
theorem minMachinesRequiredPerDatacenter_divisor (c : DatabaseConfiguration) :
    (∀ r ∈ c.regions, 1 ≤ max 1 r.satelliteTLogUsableDcs ∧
      max 1 r.satelliteTLogUsableDcs ≠ 0) ∧
    c.minMachinesRequiredPerDatacenterChecked = some c.minMachinesRequiredPerDatacenter ∧
    (∀ r ∈ c.regions, r.satelliteTLogUsableDcs ≤ 1 →
      div32 r.satelliteTLogReplicationFactor (max 1 r.satelliteTLogUsableDcs) =
        some r.satelliteTLogReplicationFactor) ∧
    c.minMachinesRequiredPerDatacenter =
      c.regions.foldl
        (fun minRequired r =>
          max minRequired
            (if r.satelliteTLogUsableDcs ≤ 1 then r.satelliteTLogReplicationFactor
             else r.satelliteTLogReplicationFactor.tdiv r.satelliteTLogUsableDcs))
        (max c.remoteTLogReplicationFactor
          (max c.tLogReplicationFactor c.storageTeamSize)) := by
  have hq : ∀ r : RegionInfo,
      r.satelliteTLogReplicationFactor.tdiv (max 1 r.satelliteTLogUsableDcs) =
        (if r.satelliteTLogUsableDcs ≤ 1 then r.satelliteTLogReplicationFactor
         else r.satelliteTLogReplicationFactor.tdiv r.satelliteTLogUsableDcs) := by
    intro r
    by_cases h : r.satelliteTLogUsableDcs ≤ 1
    · rw [if_pos h, max_eq_left h, Int.tdiv_one]
    · rw [if_neg h, max_eq_right (by omega)]
  refine ⟨?_, ?_, ?_, ?_⟩
  · intro r _
    have h1 : 1 ≤ max 1 r.satelliteTLogUsableDcs := le_max_left _ _
    exact ⟨h1, by omega⟩
  · exact minMachinesRequiredLoop_eq c.regions _
  · intro r _ h
    rw [div32_of_pos _ _ (le_max_left _ _), hq r, if_pos h]
  · unfold minMachinesRequiredPerDatacenter
    simp only [hq]

/-- C20, at a concrete configuration with replication factor and team size 3 and three
regions of satellite replication factors 4, 9 and 7 with usable datacenter counts 0, 2
and -3: the checked function returns, the regions contribute 4, `9 / 2 = 4` and 7, and
the result is 7. -/
theorem minMachinesRequiredPerDatacenter_divisor_witness :
    (configWith 3 0 3 0
      [regionWith [1] 4 0 0 [], regionWith [2] 9 0 2 [],
        regionWith [3] 7 0 (-3) []]).minMachinesRequiredPerDatacenterChecked = some 7 ∧
    (configWith 3 0 3 0
      [regionWith [1] 4 0 0 [], regionWith [2] 9 0 2 [],
        regionWith [3] 7 0 (-3) []]).minMachinesRequiredPerDatacenter = 7 ∧
    div32 (regionWith [3] 7 0 (-3) []).satelliteTLogReplicationFactor
      (max 1 (regionWith [3] 7 0 (-3) []).satelliteTLogUsableDcs) = some 7 :=
  ⟨((minMachinesRequiredPerDatacenter_divisor (configWith 3 0 3 0
      [regionWith [1] 4 0 0 [], regionWith [2] 9 0 2 [], regionWith [3] 7 0 (-3) []])).2.1).trans
      (by decide),
   ((minMachinesRequiredPerDatacenter_divisor (configWith 3 0 3 0
      [regionWith [1] 4 0 0 [], regionWith [2] 9 0 2 [], regionWith [3] 7 0 (-3) []])).2.2.2).trans
      (by decide),
   ((minMachinesRequiredPerDatacenter_divisor (configWith 3 0 3 0
      [regionWith [1] 4 0 0 [], regionWith [2] 9 0 2 [], regionWith [3] 7 0 (-3) []])).2.2.1
      (regionWith [3] 7 0 (-3) []) (by decide) (by decide)).trans (by decide)⟩

end DatabaseConfiguration

end FDB
